import Mathlib

/-!
Verification of the README merge engine of `talon-manifest-tools`.

The repository generates and updates `README.md` files from a package's
`manifest.json`.  The core logic is in `src/generate_readme.py`
(`update_existing_readme`, `create_new_readme`, `process_directory`),
`src/generate_shields.py` (`generate_shields`), `src/diff_utils.py`
(`diff_text`, `diff_json`) and `src/generate_all.py` (`main`).

Documents are modelled as `List Char` (Python `str`).  The Python code drives
its text surgery with `re` patterns; those patterns are embedded here as
explicit character scanners with the same semantics:

* `shield_pattern  = !\[(Version|Status|Platform|License|Talon Beta)\]\([^\)]+\)`
* `shield_block    = (?:shield_pattern\s*)+`          (greedy, no backtracking
  is ever needed because nothing follows the `+` in the pattern)
* `title_pattern   = ^#\s+.+$`                         (MULTILINE; note `\s`
  matches newlines, so the match can span lines, and the engine backtracks on
  `\s+` only when `.+` would otherwise have no character to match)
* `install_pattern = ^#{1,6}\s+.*\b(Installation|Install|Setup)\b` (M | I)
* `common_pattern  = ^#{1,6}\s+(Usage|Features|License|Contributing|API)\s*$` (M | I)

Whitespace (`\s`, `str.strip`) is modelled by the ASCII whitespace characters
Python uses for ASCII input; all theorems below only evaluate the scanners on
ASCII text.  Word characters (`\b`) are modelled as ASCII `[A-Za-z0-9_]`.
-/

/-- Convert a string literal to the character-list document representation. -/
def lc (s : String) : List Char := s.toList

/-- Python `\s` / `str.strip()` whitespace, restricted to ASCII. -/
def pySpace (ch : Char) : Bool :=
  ch == ' ' || ch == '\t' || ch == '\n' || ch == '\r' || ch == '\x0b' || ch == '\x0c'

/-- Python `\w` word character, restricted to ASCII. -/
def wordChar (ch : Char) : Bool := ch.isAlphanum || ch == '_'

/-- Python `str.lower()`, restricted to ASCII. -/
def lowerList (s : List Char) : List Char := s.map Char.toLower

/-- Python `str.lstrip()`. -/
def lstrip (c : List Char) : List Char := c.dropWhile pySpace

/-- Python `str.rstrip()`. -/
def rstrip (c : List Char) : List Char := (c.reverse.dropWhile pySpace).reverse

/-- The manifest fields consumed by the generators (spec section 6).  A field
that is absent from the JSON object is `none`; `requires_talon_beta` /
`requiresTalonBeta` model the truthiness of either spelling of the beta flag. -/
structure Manifest where
  name : Option (List Char) := none
  title : Option (List Char) := none
  description : Option (List Char) := none
  version : Option (List Char) := none
  status : Option (List Char) := none
  platforms : Option (List (List Char)) := none
  requires_talon_beta : Bool := false
  requiresTalonBeta : Bool := false

/-- `STATUS_COLORS` from `src/generate_shields.py` lines 21-29. -/
def STATUS_COLORS : List (List Char × List Char) :=
  [ (lc "stable", lc "green"),
    (lc "preview", lc "orange"),
    (lc "experimental", lc "orange"),
    (lc "prototype", lc "red"),
    (lc "reference", lc "blue"),
    (lc "deprecated", lc "red"),
    (lc "archived", lc "lightgrey") ]

/-- `STATUS_COLORS.get(status, "lightgrey")`. -/
def statusColor (s : List Char) : List Char :=
  (STATUS_COLORS.lookup s).getD (lc "lightgrey")

/-- Python `sep.join(parts)`. -/
def joinWith (sep : List Char) : List (List Char) → List Char
  | [] => []
  | [x] => x
  | x :: y :: xs => x ++ sep ++ joinWith sep (y :: xs)

/-- Truthiness of `manifest.get("platforms")`: a present, non-empty list. -/
def platTruthy (m : Manifest) : Bool :=
  match m.platforms with
  | some ps => !ps.isEmpty
  | none => false

/-- Truthiness of `manifest.get("requires_talon_beta") or manifest.get("requiresTalonBeta")`. -/
def betaTruthy (m : Manifest) : Bool :=
  m.requires_talon_beta || m.requiresTalonBeta

/-- The Version badge line (`src/generate_shields.py` lines 36-37). -/
def versionLine (m : Manifest) : List Char :=
  lc "![Version](https://img.shields.io/badge/version-" ++ m.version.getD (lc "0.0.0")
    ++ lc "-blue)"

/-- The Status badge line (`src/generate_shields.py` lines 40-42). -/
def statusLine (m : Manifest) : List Char :=
  let status := lowerList (m.status.getD (lc "unknown"))
  lc "![Status](https://img.shields.io/badge/status-" ++ status ++ lc "-"
    ++ statusColor status ++ lc ")"

/-- The Platform badge line (`src/generate_shields.py` lines 45-48). -/
def platformLine (m : Manifest) : List Char :=
  lc "![Platform](https://img.shields.io/badge/platform-"
    ++ joinWith (lc "%20%7C%20") (m.platforms.getD []) ++ lc "-lightgrey)"

/-- The Talon Beta badge line (`src/generate_shields.py` line 52). -/
def betaLine : List Char :=
  lc "![Talon Beta](https://img.shields.io/badge/talon%20beta-required-red)"

/-- `generate_shields` from `src/generate_shields.py` lines 31-54: sequential
appends of version badge, status badge, optional platform badge, optional
Talon Beta badge. -/
def generate_shields (m : Manifest) : List (List Char) :=
  let shields : List (List Char) := []
  let shields := shields ++ [versionLine m]
  let shields := shields ++ [statusLine m]
  let shields := if platTruthy m then shields ++ [platformLine m] else shields
  let shields := if betaTruthy m then shields ++ [betaLine] else shields
  shields

/-- `"\n".join(shields)` as used in `update_existing_readme`. -/
def shieldLines (m : Manifest) : List Char := joinWith (lc "\n") (generate_shields m)

/-- The replacement text `shield_lines + "\n\n"` of `src/generate_readme.py` line 84. -/
def shieldBlockRepl (m : Manifest) : List Char := shieldLines m ++ lc "\n\n"

/-! ### The shield pattern scanner -/

/-- The five recognised badge labels of `shield_pattern`
(`src/generate_readme.py` line 70), in Python's alternation order.  No label is
a prefix of another, so first-match label selection is deterministic. -/
def shieldLabels : List (List Char) := [lc "Version", lc "Status", lc "Platform",
  lc "License", lc "Talon Beta"]

/-- Match a literal prefix, returning the remaining input. -/
def stripLit : List Char → List Char → Option (List Char)
  | [], s => some s
  | _ :: _, [] => none
  | l :: ls, x :: xs => if l == x then stripLit ls xs else none

/-- Try each label in order; return the matched label and the rest. -/
def tryLabels : List (List Char) → List Char → Option (List Char × List Char)
  | [], _ => none
  | lab :: rest, s =>
    match stripLit lab s with
    | some r => some (lab, r)
    | none => tryLabels rest s

/-- Match `shield_pattern` at the current position: `![`, a recognised label,
`](`, a non-empty greedy run of non-`)` characters, `)`.  Returns the matched
text and the remaining input. -/
def matchShieldAt (c : List Char) : Option (List Char × List Char) :=
  match stripLit (lc "![") c with
  | none => none
  | some r1 =>
    match tryLabels shieldLabels r1 with
    | none => none
    | some (lab, r2) =>
      match stripLit (lc "](") r2 with
      | none => none
      | some r3 =>
        let url := r3.takeWhile (fun ch => !(ch == ')'))
        let r4 := r3.dropWhile (fun ch => !(ch == ')'))
        if url.isEmpty then none
        else
          match r4 with
          | ')' :: r5 => some (lc "![" ++ lab ++ lc "](" ++ url ++ [')'], r5)
          | _ => none

/-- One-or-more repetitions of `shield_pattern` followed by greedy `\s*`
(the block pattern of `src/generate_readme.py` line 83).  `fuel` only bounds
recursion; every repetition consumes at least one character, so
`fuel = length + 1` never runs out before the scan does. -/
def blockLoop : Nat → List Char → Option (List Char × List Char)
  | 0, _ => none
  | fuel + 1, c =>
    match matchShieldAt c with
    | none => none
    | some (mat, rest) =>
      let ws := rest.takeWhile pySpace
      let rest2 := rest.dropWhile pySpace
      match blockLoop fuel rest2 with
      | some (mat2, rest3) => some (mat ++ ws ++ mat2, rest3)
      | none => some (mat ++ ws, rest2)

/-- Match the shield block pattern at the current position. -/
def matchBlockAt (c : List Char) : Option (List Char × List Char) :=
  blockLoop (c.length + 1) c

/-- Leftmost `shield_pattern` match, split as (prefix, match, suffix).
`re.findall(shield_pattern, content)` is non-empty iff this is `some`. -/
def findShield : List Char → Option (List Char × List Char × List Char)
  | [] => none
  | x :: xs =>
    match matchShieldAt (x :: xs) with
    | some (mat, rest) => some ([], mat, rest)
    | none => (findShield xs).map (fun t => (x :: t.1, t.2.1, t.2.2))

/-- Leftmost shield-block match, split as (prefix, match, suffix).  A block
match starts exactly where a shield match starts, so this is the match
`re.sub(shield_block_pattern, ..., content, count=1)` replaces. -/
def findBlock : List Char → Option (List Char × List Char × List Char)
  | [] => none
  | x :: xs =>
    match matchBlockAt (x :: xs) with
    | some (mat, rest) => some ([], mat, rest)
    | none => (findBlock xs).map (fun t => (x :: t.1, t.2.1, t.2.2))

/-- `re.sub(shield_block_pattern, repl, content, count=1)` with a literal
replacement (the generated badge lines contain no `re` template escapes). -/
def replaceFirstBlock (repl : List Char) (c : List Char) : List Char :=
  match findBlock c with
  | some (pre, _, suf) => pre ++ repl ++ suf
  | none => c

/-! ### The title pattern scanner

`re.search(r"^#\s+.+$", content, re.MULTILINE)`: a single `#` at a line start,
then greedy `\s+` (which matches newlines), then `.+` (non-newline) up to `$`.
The engine backtracks on `\s+` only when the input ends right after the
whitespace run; it then gives back characters one at a time until `.` can
match, i.e. it stops at the last non-newline character of the run. -/

/-- Largest index `j ≥ 1` of `W` holding a non-newline character (the value of
the backtracked `\s+` length when `.+` must be fed from the whitespace run). -/
def lastNonNl (W : List Char) : Option Nat :=
  (List.range W.length).foldl
    (fun acc j =>
      match W[j]? with
      | some ch => if 1 ≤ j && !(ch == '\n') then some j else acc
      | none => acc)
    none

/-- Length of the `^#\s+.+$` match starting at this position (a line start),
or `none` if the pattern does not match here. -/
def titleLenAt : List Char → Option Nat
  | '#' :: rest =>
    let W := rest.takeWhile pySpace
    let R := rest.drop W.length
    if W.isEmpty then none
    else
      match R with
      | _ :: _ => some (1 + W.length + (R.takeWhile (fun ch => !(ch == '\n'))).length)
      | [] =>
        match lastNonNl W with
        | some j => some (1 + j + ((W.drop j).takeWhile (fun ch => !(ch == '\n'))).length)
        | none => none
  | _ => none

/-- Scan line starts left to right for the title pattern; return `match.end()`. -/
def findTitleAux : List Char → Bool → Nat → Option Nat
  | [], atStart, pos => if atStart then (titleLenAt []).map (pos + ·) else none
  | x :: xs, atStart, pos =>
    match (if atStart then titleLenAt (x :: xs) else none) with
    | some len => some (pos + len)
    | none => findTitleAux xs (x == '\n') (pos + 1)

/-- `title_match.end()` of `src/generate_readme.py` lines 89-91. -/
def findTitleEnd (c : List Char) : Option Nat := findTitleAux c true 0

/-! ### The install-section and common-section scanners -/

/-- The keyword alternatives of `install_section_pattern`, lower-cased
for the `re.IGNORECASE` comparison. -/
def installKws : List (List Char) := [lc "installation", lc "install", lc "setup"]

/-- The keyword alternatives of the common-section pattern
(`src/generate_readme.py` line 112), lower-cased. -/
def commonKws : List (List Char) := [lc "usage", lc "features", lc "license",
  lc "contributing", lc "api"]

/-- Case-insensitive keyword at the head of `s` with a trailing `\b`
(next character absent or not a word character). -/
def kwMatch (kw : List Char) (s : List Char) : Bool :=
  lowerList (s.take kw.length) == kw &&
    (match s.drop kw.length with
     | a :: _ => !(wordChar a)
     | [] => true)

/-- `\b(kw1|kw2|...)\b` at offset `t` of `S`; callers guarantee `t ≥ 1`, so the
leading boundary is decided by the character at `t - 1`. -/
def keywordAt (kws : List (List Char)) (S : List Char) (t : Nat) : Bool :=
  (match S[t - 1]? with
   | some p => !(wordChar p)
   | none => true) &&
  kws.any (fun kw => kwMatch kw (S.drop t))

/-- Given the text `S` following the `#` run, and a length `w` taken by the
backtracking `\s+`, test whether `.*\b(Installation|Install|Setup)\b` matches:
some run of `i` non-newline characters after position `w` is followed by a
bounded keyword. -/
def kwInLineFrom (S : List Char) (w : Nat) : Bool :=
  decide (1 ≤ w) &&
    (let T := S.drop w
     let run := (T.takeWhile (fun ch => !(ch == '\n'))).length
     (List.range (run + 1)).any (fun i => keywordAt installKws S (w + i)))

/-- `#{1,6}\s+.*\b(Installation|Install|Setup)\b` at this (line-start)
position.  `h` must be the whole `#` run (a shorter choice is followed by `#`,
which `\s` rejects); the existential over `w` ranges over the lengths the
backtracking `\s+` can take (a prefix of the whitespace run). -/
def installAt (c : List Char) : Bool :=
  let h := (c.takeWhile (· == '#')).length
  decide (1 ≤ h) && decide (h ≤ 6) &&
    (let S := c.drop h
     let L := (S.takeWhile pySpace).length
     (List.range (L + 1)).any (kwInLineFrom S))

/-- The claim's notion of an install-section heading, at this (line-start)
position: 1-6 `#` characters, then a whitespace character belonging to the
same line (hence not a newline), with one of the keywords appearing later in
that same line as a case-insensitive whole word (`kwInLineFrom S 1` looks past
exactly the one whitespace character and only crosses non-newline text). -/
def claimInstallAt (c : List Char) : Bool :=
  let h := (c.takeWhile (· == '#')).length
  decide (1 ≤ h) && decide (h ≤ 6) &&
    (let S := c.drop h
     (match S[0]? with
      | some wch => pySpace wch && !(wch == '\n')
      | none => false) &&
     kwInLineFrom S 1)

/-- `\s*$` right after the keyword: some all-whitespace prefix of length `j`
ends at a newline or at the end of the input. -/
def eolAfterWs (T : List Char) : Bool :=
  let L := (T.takeWhile pySpace).length
  (List.range (L + 1)).any (fun j => decide (j = T.length) || (T[j]? == some '\n'))

/-- `#{1,6}\s+(Usage|Features|License|Contributing|API)\s*$` at this
(line-start) position. -/
def commonAt (c : List Char) : Bool :=
  let h := (c.takeWhile (· == '#')).length
  decide (1 ≤ h) && decide (h ≤ 6) &&
    (let S := c.drop h
     let L := (S.takeWhile pySpace).length
     (List.range (L + 1)).any (fun w =>
       decide (1 ≤ w) &&
         commonKws.any (fun kw =>
           lowerList ((S.drop w).take kw.length) == kw &&
             eolAfterWs ((S.drop w).drop kw.length))))

/-- Try a position matcher at every line start (`^` under `re.MULTILINE`):
position 0, every position following a newline, and the end-of-input position
when it follows a newline. -/
def scanLSAux (f : List Char → Bool) : Bool → List Char → Bool
  | atStart, [] => atStart && f []
  | atStart, x :: xs => (atStart && f (x :: xs)) || scanLSAux f (x == '\n') xs

/-- `re.search(install_section_pattern, content, re.MULTILINE | re.IGNORECASE)`
is truthy (`src/generate_readme.py` line 108). -/
def searchInstall (c : List Char) : Bool := scanLSAux installAt true c

/-- The document contains an install-section heading in the claim's
line-anchored, single-line sense. -/
def claimInstallHeading (c : List Char) : Bool := scanLSAux claimInstallAt true c

/-- Scan line starts for the common-section pattern; return `match.start()`
(`src/generate_readme.py` lines 112-115). -/
def findCommonAux : List Char → Bool → Nat → Option Nat
  | [], atStart, pos => if atStart && commonAt [] then some pos else none
  | x :: xs, atStart, pos =>
    if atStart && commonAt (x :: xs) then some pos
    else findCommonAux xs (x == '\n') (pos + 1)

/-- `common_sections.start()` of the leftmost match, if any. -/
def findCommonStart (c : List Char) : Option Nat := findCommonAux c true 0

/-! ### The merge engine (`update_existing_readme`) -/

/-- Modelled from the spec: `generate_install_block.generate_installation_markdown`
is imported by `src/generate_readme.py` but its module is not under `src/`.
The spec (sections 2 and 4.2) treats it as a pure fragment generator
`manifest -> installation section text`, and the determinism requirement of
section 4.2 ("first insertion must itself be detectable as already present on
the next pass") requires the rendered section to begin with an Installation
heading.  It is modelled here as a fixed Installation section. -/
def generate_installation_markdown (_m : Manifest) : List Char :=
  lc "## Installation\n\nInstall this package with the Talon package manager."

/-- The lower-cased `manifest.get("status", "")` of `src/generate_readme.py` line 63. -/
def manStatus (m : Manifest) : List Char := lowerList (m.status.getD [])

/-- `status in ["reference", "archived", "deprecated"]`. -/
def gatedStatus (s : List Char) : Bool :=
  s == lc "reference" || s == lc "archived" || s == lc "deprecated"

/-- The shields half of `update_existing_readme` (`src/generate_readme.py`
lines 66-101).  `sg` is the result of `should_generate_shields(manifest)` —
modelled from the spec as an explicit boolean input, because that function's
module is not under `src/` (the spec only says badge generation may be
disabled by manifest state).  Returns the updated content and the actions. -/
def apply_shields (c : List Char) (m : Manifest) (sg : Bool) : List Char × List String :=
  let existing := (findShield c).isSome
  if existing && sg then
    (replaceFirstBlock (shieldBlockRepl m) c, ["updated shields"])
  else if !existing && sg then
    match findTitleEnd c with
    | some te =>
      (c.take te ++ lc "\n\n" ++ shieldLines m ++ lc "\n\n" ++ lstrip (c.drop te),
        ["added shields after title"])
    | none => (shieldLines m ++ lc "\n\n" ++ lstrip c, ["added shields at start"])
  else (c, ["skipped shields (disabled)"])

/-- The installation half of `update_existing_readme` (`src/generate_readme.py`
lines 103-119): gated statuses never insert; a detected existing section is
left alone; otherwise the rendered section is inserted before the first
common section, or appended at the end. -/
def apply_install (c : List Char) (m : Manifest) : List Char × List String :=
  if gatedStatus (manStatus m) then (c, [])
  else if searchInstall c then (c, [])
  else
    let installation := generate_installation_markdown m
    match findCommonStart c with
    | some ip => (c.take ip ++ installation ++ lc "\n\n" ++ c.drop ip,
        ["added installation section"])
    | none => (rstrip c ++ lc "\n\n" ++ installation ++ lc "\n",
        ["added installation section"])

/-- `update_existing_readme` (`src/generate_readme.py` lines 57-121): the
shields stage followed by the installation stage, with the actions of the two
stages in program order. -/
def update_existing_readme (c : List Char) (m : Manifest) (sg : Bool) :
    List Char × List String :=
  let s := apply_shields c m sg
  let i := apply_install s.1 m
  (i.1, s.2 ++ i.2)

/-! ### The diff engine (`src/diff_utils.py`) -/

/-- `diff_text` (`src/diff_utils.py` lines 92-110).  The unified-diff renderer
(`difflib.unified_diff`, an external library) is passed in as `udiff old new
label`; the function's own logic is the byte-equality short circuit. -/
def diff_text (udiff : List Char → List Char → List Char → List Char)
    (old_content new_content label : List Char) : Bool × List Char :=
  if old_content == new_content then (false, [])
  else (true, udiff old_content new_content label)

/-- `diff_json` (`src/diff_utils.py` lines 60-89).  `normalize` models
`json.dumps(json.loads(s), indent=2, ensure_ascii=False)`, returning `none` on
a decode error; when either side fails to parse, both fall back to the raw
text (the Python `except` block reassigns both). -/
def diff_json (normalize : List Char → Option (List Char))
    (udiff : List Char → List Char → List Char → List Char)
    (old_content new_content label : List Char) : Bool × List Char :=
  if old_content == new_content then (false, [])
  else
    let p :=
      match normalize old_content, normalize new_content with
      | some a, some b => (a, b)
      | _, _ => (old_content, new_content)
    if p.1 == p.2 then (false, [])
    else (true, udiff p.1 p.2 label)

/-! ### Creating a new README (`create_new_readme`) -/

/-- `create_new_readme` (`src/generate_readme.py` lines 16-54).  `sg` models
`should_generate_shields(manifest)` (see `apply_shields`); `hasPreview` models
`(package_dir / "preview.png").exists()`. -/
def create_new_readme (m : Manifest) (sg : Bool) (hasPreview : Bool) : List Char :=
  let title := m.title.getD (m.name.getD (lc "Talon Package"))
  let description := m.description.getD (lc "A Talon voice control package.")
  let status := manStatus m
  let ls : List (List Char) := [lc "# " ++ title, []]
  let ls := if sg then ls ++ generate_shields m ++ [[]] else ls
  let ls := ls ++ [description]
  let ls := if hasPreview then
      ls ++ [[], lc "<img src=\"preview.png\" alt=\"preview\">"] else ls
  let ls := if gatedStatus status then ls
      else ls ++ [[], generate_installation_markdown m]
  joinWith (lc "\n") ls

/-! ### The change reporter (`process_directory` of `src/generate_readme.py`) -/

/-- Classification of a run, as printed by `process_directory`: `created` for
`status_created`, `noChange` for `status_no_change`, `modified` for the
filename-plus-diff report, `skippedManifest` / `errorMissingManifest` for the
two missing-manifest messages. -/
inductive Classification where
  | created
  | modified
  | noChange
  | skippedManifest
  | errorMissingManifest
deriving DecidableEq, Repr

/-- The observable outcome of one `process_directory` run on one README. -/
structure ProcResult where
  success : Bool
  klass : Classification
  written : Option (List Char)
  report : List Char
deriving DecidableEq, Repr

/-- `process_directory` (`src/generate_readme.py` lines 124-202) as a pure
state transformer.  File-system state is explicit: `manifestExists` models the
`manifest_path.exists()` check, `existing` holds the current README content
when the file exists (`none` when it does not), and `written` is the content
written back, `none` when nothing is written.  Exceptions other than the
missing-manifest paths are outside the model. -/
def process_directory (udiff : List Char → List Char → List Char → List Char)
    (manifestExists : Bool) (m : Manifest) (sg : Bool) (hasPreview : Bool)
    (existing : Option (List Char)) (dryRun : Bool) : ProcResult :=
  if !manifestExists then
    if dryRun then ⟨true, .skippedManifest, none, []⟩
    else ⟨false, .errorMissingManifest, none, []⟩
  else
    match existing with
    | some content =>
      let updated := (update_existing_readme content m sg).1
      let d := diff_text udiff content updated (lc "README.md")
      if dryRun then
        ⟨true, if d.1 then .modified else .noChange, none, d.2⟩
      else if d.1 then
        ⟨true, .modified, some updated, d.2⟩
      else
        ⟨true, .noChange, none, d.2⟩
    | none =>
      let new_content := create_new_readme m sg hasPreview
      let d := diff_text udiff [] new_content (lc "README.md")
      ⟨true, .created, if dryRun then none else some new_content, d.2⟩

/-! ### The batch driver (`src/generate_all.py`) -/

/-- The success-count loop of `main` (`src/generate_all.py` lines 176-178):
each entry of `results` is the return value of `process_directory` for one
target directory; every entry is visited. -/
def mainLoop : List Bool → Nat → Nat
  | [], acc => acc
  | r :: rs, acc => mainLoop rs (if r then acc + 1 else acc)

/-- `main` of `src/generate_all.py` (lines 140-199) with the per-directory
outcomes as input (each directory's generators run in subprocesses, outside
the model).  Returns (success count, total count, process exit status).  The
function prints a summary and returns without calling `sys.exit`, so the
interpreter exits with status 0 on every run that reaches the end of `main`. -/
def generate_all_main (results : List Bool) : Nat × Nat × Nat :=
  (mainLoop results 0, results.length, 0)

/-! ### Concrete fixtures used by the claim theorems -/

/-- A manifest with `{"status": "archived"}`. -/
def mArchived : Manifest := { status := some (lc "archived") }

/-- A manifest with `{"status": "stable"}`. -/
def mStable : Manifest := { status := some (lc "stable") }

/-! ## Lemmas about the scanners -/

theorem stripLit_append (l : List Char) :
    ∀ s r, stripLit l s = some r → s = l ++ r := by
  induction l with
  | nil => intro s r h; simp [stripLit] at h; simp [h]
  | cons a l ih =>
    intro s r h
    cases s with
    | nil => simp [stripLit] at h
    | cons x xs =>
      simp only [stripLit] at h
      split at h
      · rename_i hax
        have hax' : a = x := by simpa using hax
        simpa [hax'] using ih xs r h
      · exact absurd h (by simp)

theorem tryLabels_append (ls : List (List Char)) :
    ∀ s lab r, tryLabels ls s = some (lab, r) → s = lab ++ r := by
  induction ls with
  | nil => intro s lab r h; simp [tryLabels] at h
  | cons a ls ih =>
    intro s lab r h
    simp only [tryLabels] at h
    split at h
    · rename_i r2 hs
      rw [Option.some.injEq, Prod.mk.injEq] at h
      rw [← h.1, ← h.2]
      exact stripLit_append a s r2 hs
    · exact ih s lab r h

theorem matchShieldAt_append (c mat rest : List Char)
    (h : matchShieldAt c = some (mat, rest)) : c = mat ++ rest := by
  unfold matchShieldAt at h
  split at h
  · exact absurd h (by simp)
  · rename_i r1 h1
    split at h
    · exact absurd h (by simp)
    · rename_i lab r2 h2
      split at h
      · exact absurd h (by simp)
      · rename_i r3 h3
        simp only at h
        split at h
        · exact absurd h (by simp)
        · split at h
          · rename_i r5 h4
            rw [Option.some.injEq, Prod.mk.injEq] at h
            rw [← h.1, ← h.2]
            have e1 := stripLit_append _ _ _ h1
            have e2 := tryLabels_append _ _ _ _ h2
            have e3 := stripLit_append _ _ _ h3
            have e5 : r3 = r3.takeWhile (fun ch => !(ch == ')')) ++ ')' :: r5 := by
              rw [← h4]
              exact (List.takeWhile_append_dropWhile _ _).symm
            conv_lhs => rw [e1, e2, e3, e5]
            simp
          · exact absurd h (by simp)

theorem blockLoop_append :
    ∀ fuel c mat rest, blockLoop fuel c = some (mat, rest) → c = mat ++ rest := by
  intro fuel
  induction fuel with
  | zero => intro c mat rest h; simp [blockLoop] at h
  | succ fuel ih =>
    intro c mat rest h
    simp only [blockLoop] at h
    split at h
    · exact absurd h (by simp)
    · rename_i mat1 r hs
      have e1 := matchShieldAt_append _ _ _ hs
      split at h
      · rename_i mat2 rest3 hb
        rw [Option.some.injEq, Prod.mk.injEq] at h
        rw [← h.1, ← h.2]
        have e3 := ih _ _ _ hb
        have e5 : r = r.takeWhile pySpace ++ (mat2 ++ rest3) := by
          rw [← e3]
          exact (List.takeWhile_append_dropWhile _ _).symm
        conv_lhs => rw [e1, e5]
        simp
      · rw [Option.some.injEq, Prod.mk.injEq] at h
        rw [← h.1, ← h.2]
        have e5 : r = r.takeWhile pySpace ++ r.dropWhile pySpace :=
          (List.takeWhile_append_dropWhile _ _).symm
        conv_lhs => rw [e1, e5]
        simp

theorem findBlock_split :
    ∀ c pre mat suf, findBlock c = some (pre, mat, suf) → c = pre ++ mat ++ suf := by
  intro c
  induction c with
  | nil => intro pre mat suf h; simp [findBlock] at h
  | cons x xs ih =>
    intro pre mat suf h
    simp only [findBlock] at h
    split at h
    · rename_i mat1 rest hb
      rw [Option.some.injEq, Prod.mk.injEq, Prod.mk.injEq] at h
      rw [← h.1, ← h.2.1, ← h.2.2]
      simpa using blockLoop_append _ _ _ _ hb
    · rename_i hb
      rw [Option.map_eq_some'] at h
      obtain ⟨⟨p, mt, sf⟩, hfx, he⟩ := h
      rw [Prod.mk.injEq, Prod.mk.injEq] at he
      rw [← he.1, ← he.2.1, ← he.2.2]
      simpa using ih p mt sf hfx

theorem matchBlockAt_isSome_shield (c : List Char)
    (h : (matchBlockAt c).isSome) : (matchShieldAt c).isSome := by
  simp only [matchBlockAt, blockLoop] at h
  split at h
  · simp at h
  · simp_all

theorem findBlock_findShield :
    ∀ c, (findBlock c).isSome → (findShield c).isSome := by
  intro c
  induction c with
  | nil => intro h; simp [findBlock] at h
  | cons x xs ih =>
    intro h
    simp only [findBlock] at h
    simp only [findShield]
    split at h
    · rename_i mat rest hb
      have hsh : (matchShieldAt (x :: xs)).isSome :=
        matchBlockAt_isSome_shield _ (by rw [hb]; rfl)
      split
      · simp
      · rename_i hs
        rw [hs] at hsh
        simp at hsh
    · rename_i hb
      split
      · simp
      · cases hfb : findBlock xs with
        | none => rw [hfb] at h; simp at h
        | some t =>
          have hx : (findShield xs).isSome := ih (by simp [hfb])
          rcases Option.isSome_iff_exists.mp hx with ⟨u, hu⟩
          simp [hu]

/-- When a badge block is located, the shields stage replaces exactly the
matched span, leaving the prefix and suffix untouched. -/
theorem apply_shields_replace (c pre mat suf : List Char) (m : Manifest)
    (hb : findBlock c = some (pre, mat, suf)) :
    apply_shields c m true = (pre ++ shieldBlockRepl m ++ suf, ["updated shields"]) := by
  have hs : (findShield c).isSome := findBlock_findShield c (by simp [hb])
  unfold apply_shields
  rw [hs]
  simp [replaceFirstBlock, hb]

/-- The installation stage is the identity when the status is gated or an
install section is detected in the current content. -/
theorem install_noop (c : List Char) (m : Manifest)
    (h : gatedStatus (manStatus m) = true ∨ searchInstall c = true) :
    apply_install c m = (c, []) := by
  unfold apply_install
  rcases h with h | h
  · rw [h]
    simp
  · rw [h]
    by_cases hg : gatedStatus (manStatus m) = true <;> simp [hg]

/-- Line-start scanning is monotone in the position matcher. -/
theorem scanLSAux_mono (f g : List Char → Bool)
    (hfg : ∀ s, f s = true → g s = true) :
    ∀ c b, scanLSAux f b c = true → scanLSAux g b c = true := by
  intro c
  induction c with
  | nil =>
    intro b h
    simp only [scanLSAux, Bool.and_eq_true] at h ⊢
    exact ⟨h.1, hfg _ h.2⟩
  | cons x xs ih =>
    intro b h
    simp only [scanLSAux, Bool.or_eq_true, Bool.and_eq_true] at h ⊢
    rcases h with ⟨hb, hf⟩ | h
    · exact Or.inl ⟨hb, hfg _ hf⟩
    · exact Or.inr (ih _ h)

/-- A whitespace first character makes the `\s`-run non-empty. -/
theorem takeWhile_pySpace_pos (S : List Char) (a : Char)
    (h0 : S[0]? = some a) (hsp : pySpace a = true) :
    1 ≤ (S.takeWhile pySpace).length := by
  cases S with
  | nil => simp at h0
  | cons b S2 =>
    have hab : a = b := by simpa using h0.symm
    subst hab
    simp [List.takeWhile_cons, hsp]

/-- A heading in the claim's line-anchored sense is in particular matched by
the code's install pattern at the same position (take `\s+` of length one). -/
theorem claimInstallAt_installAt (c : List Char)
    (h : claimInstallAt c = true) : installAt c = true := by
  unfold claimInstallAt at h
  unfold installAt
  simp only [Bool.and_eq_true, decide_eq_true_eq] at h ⊢
  refine ⟨⟨h.1.1, h.1.2⟩, ?_⟩
  obtain ⟨-, hwch, hkw⟩ := h
  rw [List.any_eq_true]
  refine ⟨1, ?_, hkw⟩
  rw [List.mem_range]
  have : ∃ a, (c.drop ((c.takeWhile (· == '#')).length))[0]? = some a ∧ pySpace a = true := by
    revert hwch
    cases hx : (c.drop ((c.takeWhile (· == '#')).length))[0]? with
    | none => simp
    | some wch =>
      intro hwch
      rw [Bool.and_eq_true] at hwch
      exact ⟨wch, rfl, hwch.1⟩
  obtain ⟨a, h0, hsp⟩ := this
  have := takeWhile_pySpace_pos _ _ h0 hsp
  omega

/-- A document containing a claim-style install heading is detected by the
code's `re.search` of the install pattern. -/
theorem claimHeading_searchInstall (c : List Char)
    (h : claimInstallHeading c = true) : searchInstall c = true :=
  scanLSAux_mono claimInstallAt installAt claimInstallAt_installAt c true h

/-- A joined line list starting with a non-empty line extends that line. -/
theorem joinWith_cons (sep x : List Char) (xs : List (List Char)) :
    ∃ t, joinWith sep (x :: xs) = x ++ t := by
  cases xs with
  | nil => exact ⟨[], by simp [joinWith]⟩
  | cons y ys => exact ⟨sep ++ joinWith sep (y :: ys), by simp [joinWith]⟩

/-- A join headed by a non-empty line is non-empty. -/
theorem joinWith_ne_nil (sep x : List Char) (xs : List (List Char)) (hx : x ≠ []) :
    joinWith sep (x :: xs) ≠ [] := by
  obtain ⟨t, ht⟩ := joinWith_cons sep x xs
  rw [ht]
  intro hcon
  exact hx (List.append_eq_nil.mp hcon).1

/-- A freshly created README is never the empty string: it starts with `# `. -/
theorem create_new_readme_ne_nil (m : Manifest) (sg hasPreview : Bool) :
    create_new_readme m sg hasPreview ≠ [] := by
  unfold create_new_readme
  cases sg <;> cases hasPreview <;>
    by_cases hg : gatedStatus (manStatus m) = true <;>
      simp only [hg, Bool.false_eq_true, if_true, if_false,
        List.cons_append, List.append_assoc, List.nil_append, ite_true, ite_false] <;>
      exact joinWith_ne_nil _ _ _ (by simp [lc])

/-- The success-count loop counts the `true` entries of the whole list. -/
theorem mainLoop_count : ∀ (rs : List Bool) (acc : Nat),
    mainLoop rs acc = acc + rs.count true := by
  intro rs
  induction rs with
  | nil => intro acc; simp [mainLoop]
  | cons r rs ih =>
    intro acc
    cases r
    · simp [mainLoop, ih, List.count_cons]
    · simp [mainLoop, ih, List.count_cons]
      omega

theorem platPre_not_version (m : Manifest) :
    (lc "![Platform]").isPrefixOf (versionLine m) = false := rfl

theorem platPre_not_status (m : Manifest) :
    (lc "![Platform]").isPrefixOf (statusLine m) = false := rfl

theorem platPre_platform (m : Manifest) :
    (lc "![Platform]").isPrefixOf (platformLine m) = true := rfl

theorem platPre_not_beta :
    (lc "![Platform]").isPrefixOf betaLine = false := rfl

theorem betaPre_not_version (m : Manifest) :
    (lc "![Talon Beta]").isPrefixOf (versionLine m) = false := rfl

theorem betaPre_not_status (m : Manifest) :
    (lc "![Talon Beta]").isPrefixOf (statusLine m) = false := rfl

theorem betaPre_not_platform (m : Manifest) :
    (lc "![Talon Beta]").isPrefixOf (platformLine m) = false := rfl

theorem betaPre_beta :
    (lc "![Talon Beta]").isPrefixOf betaLine = true := rfl

/-! ## Claim theorems -/

set_option maxRecDepth 40000

/-- C1: idempotence of the merge fails on the code.  For the existing document
`"# Title ![Version](broken\nBody"` (which contains an unclosed badge-like
fragment in its title line, so `re.findall` sees no badge and fresh badges are
inserted after the title) and the manifest `{"status": "archived"}` with badge
generation enabled, running `update_existing_readme` a second time mangles the
title line: the unclosed `![Version](` of the title and the first inserted
badge are absorbed into one badge-block match and replaced, so
`merge (merge d) ≠ merge d`. -/
theorem C1_merge_not_idempotent :
    (update_existing_readme
        (update_existing_readme (lc "# Title ![Version](broken\nBody") mArchived true).1
        mArchived true).1
      ≠ (update_existing_readme (lc "# Title ![Version](broken\nBody") mArchived true).1 := by
  decide

/-- C2 counterexample: preservation fails on an insertion path.  For the
document `"# T\n   x"` and the archived-status manifest, no badge block is
located (`findShield` is `none`) and no install section is located or inserted
(the status is gated), so the claim asserts every original byte survives
around one contiguous insertion; but `content[title_end:].lstrip()` deletes
the whitespace run `"\n   "`, and no split position `k` of the original
document embeds it as prefix-plus-suffix of the merged result. -/
theorem C2_counterexample :
    findShield (lc "# T\n   x") = none
    ∧ gatedStatus (manStatus mArchived) = true
    ∧ ((List.range ((lc "# T\n   x").length + 1)).all fun k =>
        !((((lc "# T\n   x").take k).isPrefixOf
              (update_existing_readme (lc "# T\n   x") mArchived true).1)
          && (((lc "# T\n   x").drop k).isSuffixOf
              (update_existing_readme (lc "# T\n   x") mArchived true).1))) = true := by
  refine ⟨by decide, by decide, by decide⟩

/-- C2 (amended): preservation holds on the replacement path.  Whenever the
document contains a badge block (`findBlock` locates the leftmost maximal run
`mat` between `pre` and `suf`) and the installation stage does not fire (the
status is gated, or an install section is detected in the replaced content),
the merge rewrites exactly the located range: every byte of `pre` and `suf` is
identical before and after.  On insertion paths the code additionally strips
whitespace around the insertion anchor (see the counterexample). -/
theorem C2_preservation_on_replacement (c pre mat suf : List Char) (m : Manifest)
    (hb : findBlock c = some (pre, mat, suf))
    (hi : gatedStatus (manStatus m) = true
          ∨ searchInstall (pre ++ shieldBlockRepl m ++ suf) = true) :
    c = pre ++ mat ++ suf
    ∧ update_existing_readme c m true
        = (pre ++ shieldBlockRepl m ++ suf, ["updated shields"]) := by
  refine ⟨findBlock_split c pre mat suf hb, ?_⟩
  unfold update_existing_readme
  rw [apply_shields_replace c pre mat suf m hb]
  have hin := install_noop (pre ++ shieldBlockRepl m ++ suf) m hi
  rw [List.append_assoc] at hin
  simp [hin]

theorem C2_preservation_on_replacement_witness :
    lc "intro\n![Version](1.0)\n## Install\nrest"
        = lc "intro\n" ++ lc "![Version](1.0)\n" ++ lc "## Install\nrest"
    ∧ update_existing_readme (lc "intro\n![Version](1.0)\n## Install\nrest") mStable true
        = (lc "intro\n" ++ shieldBlockRepl mStable ++ lc "## Install\nrest",
            ["updated shields"]) :=
  C2_preservation_on_replacement _ _ _ _ _ (by decide) (Or.inr (by decide))

/-- C3: status gating is bypassed by misdetection, so the claim's second half
fails on the code.  The document `"#### \nuse Setup here"` has no
Installation/Install/Setup heading in the claim's line-anchored sense
(`claimInstallHeading` is false: the heading line `"#### "` contains no
keyword and the prose line is not a heading), and the manifest status
`"stable"` is not gated, so the claim requires the install section to be
inserted; but the code's `\s+` crosses the newline, the in-prose `Setup` makes
`re.search(install_section_pattern, ...)` truthy, and nothing is inserted. -/
theorem C3_gating_bypassed :
    claimInstallHeading (lc "#### \nuse Setup here") = false
    ∧ gatedStatus (manStatus mStable) = false
    ∧ "added installation section"
        ∉ (update_existing_readme (lc "#### \nuse Setup here") mStable true).2 := by
  refine ⟨by decide, by decide, by decide⟩

/-- C4 counterexample: stale badges can survive.  With two badge runs
separated by non-badge text, `re.sub(..., count=1)` replaces only the first
run: for `"![License](a)\nmid\n![License](b)"` and the archived manifest, the
stale `![License](b)` badge — which is not in the freshly generated badge set
— survives in the merged result. -/
theorem C4_counterexample :
    (lc "![License](b)")
        <:+: (update_existing_readme (lc "![License](a)\nmid\n![License](b)") mArchived true).1
    ∧ (lc "![License](b)") ∉ generate_shields mArchived := by
  refine ⟨by decide, by decide⟩

/-- C4 (amended): the first maximal badge run is replaced wholesale.  When the
document contains badge markers, the merge's shields stage replaces the entire
leftmost maximal run `mat` (badge markers with interleaved whitespace) with
the badge set freshly generated from the manifest alone (`shieldBlockRepl m`,
which does not depend on `mat`); badge runs separated from the first by
non-badge text survive (see the counterexample). -/
theorem C4_wholesale_first_run (c pre mat suf : List Char) (m : Manifest)
    (hb : findBlock c = some (pre, mat, suf)) :
    c = pre ++ mat ++ suf
    ∧ apply_shields c m true
        = (pre ++ shieldBlockRepl m ++ suf, ["updated shields"]) :=
  ⟨findBlock_split c pre mat suf hb, apply_shields_replace c pre mat suf m hb⟩

theorem C4_wholesale_first_run_witness :
    lc "![Version](9)\nrest" = [] ++ lc "![Version](9)\n" ++ lc "rest"
    ∧ apply_shields (lc "![Version](9)\nrest") mArchived true
        = ([] ++ shieldBlockRepl mArchived ++ lc "rest", ["updated shields"]) :=
  C4_wholesale_first_run _ _ _ _ _ (by decide)

/-- C5 counterexample: an existing-but-empty document is not classified
Created.  `process_directory` takes the update path whenever the README file
exists, so for an existing empty document the run is classified Modified (the
filename-plus-diff report), not Created. -/
theorem C5_counterexample :
    (process_directory (fun _ _ _ => []) true mArchived true false (some []) false).klass
        = Classification.modified
    ∧ Classification.modified ≠ Classification.created := by
  refine ⟨by decide, by decide⟩

/-- C5 (amended): the Created classification applies exactly when the prior
document is absent (the file does not exist), not merely empty.  In that case,
for every manifest, the run is classified Created, the full new content is
written (unless dry-run), and the report is the diff of the new content
against the empty old text — an all-added diff. -/
theorem C5_created_only_when_absent
    (udiff : List Char → List Char → List Char → List Char)
    (m : Manifest) (sg hasPreview dryRun : Bool) :
    (process_directory udiff true m sg hasPreview none dryRun).klass
        = Classification.created
    ∧ (process_directory udiff true m sg hasPreview none dryRun).written
        = (if dryRun then none else some (create_new_readme m sg hasPreview))
    ∧ (process_directory udiff true m sg hasPreview none dryRun).report
        = udiff [] (create_new_readme m sg hasPreview) (lc "README.md") := by
  have hne : ([] == create_new_readme m sg hasPreview) = false := by
    rw [beq_eq_false_iff_ne]
    intro hcon
    exact create_new_readme_ne_nil m sg hasPreview hcon.symm
  unfold process_directory
  simp only [Bool.not_true, if_false, ite_false, Bool.false_eq_true]
  unfold diff_text
  rw [hne]
  simp

/-- C6 counterexample: the presence of a claim-style install heading alone
does not suppress insertion.  In `"![Version](x\n## Installation\ny)"` the
line `## Installation` is an install heading in the claim's sense, but the
whole document — heading included — is one badge-pattern match (`[^\)]+`
crosses newlines), the badge stage replaces it, and the install stage then
inserts a new installation section. -/
theorem C6_counterexample :
    claimInstallHeading (lc "![Version](x\n## Installation\ny)") = true
    ∧ "added installation section"
        ∈ (update_existing_readme (lc "![Version](x\n## Installation\ny)") mStable true).2 := by
  refine ⟨by decide, by decide⟩

/-- C6 (amended): an install heading that is still present after the badge
stage wins.  For every document, manifest and badge-generation flag, if the
content produced by the shields stage contains a heading line (1-6 `#`
followed by whitespace) whose text contains Installation, Install or Setup as
a case-insensitive whole word, the installation stage changes nothing and the
merge returns the shields-stage result unchanged. -/
theorem C6_existing_heading_wins (c : List Char) (m : Manifest) (sg : Bool)
    (h : claimInstallHeading (apply_shields c m sg).1 = true) :
    update_existing_readme c m sg = apply_shields c m sg := by
  unfold update_existing_readme
  simp [install_noop _ _ (Or.inr (claimHeading_searchInstall _ h))]

theorem C6_existing_heading_wins_witness :
    update_existing_readme (lc "# T\n\n## Installation\nS") mStable true
      = apply_shields (lc "# T\n\n## Installation\nS") mStable true :=
  C6_existing_heading_wins _ _ _ (by decide)

/-- C7: dry-run purity.  For every diff renderer, manifest-existence state,
manifest, badge flag, preview flag and prior document state, a dry run of
`process_directory` never writes to the README file, on every path. -/
theorem C7_dry_run_purity
    (udiff : List Char → List Char → List Char → List Char)
    (manifestExists : Bool) (m : Manifest) (sg hasPreview : Bool)
    (existing : Option (List Char)) :
    (process_directory udiff manifestExists m sg hasPreview existing true).written
      = none := by
  unfold process_directory
  cases manifestExists with
  | false => simp
  | true =>
    cases existing with
    | none => simp
    | some c => simp

/-- C8: byte-for-byte equal inputs short-circuit.  For every JSON normaliser,
diff renderer, text `x` and label, both `diff_text` and `diff_json` return
`(false, "")` before any diff is computed. -/
theorem C8_diff_noop
    (normalize : List Char → Option (List Char))
    (udiff : List Char → List Char → List Char → List Char)
    (x label : List Char) :
    diff_text udiff x x label = (false, [])
    ∧ diff_json normalize udiff x x label = (false, []) := by
  constructor
  · simp [diff_text]
  · simp [diff_json]

/-- C9 counterexample: the exit status does not reflect failures.  With a
single failing directory the driver's success count (0) is below the total
(1), yet the process exit status is 0 — `main` prints a summary and returns
without calling `sys.exit`, so the claim's "non-zero whenever at least one
directory failed" is false. -/
theorem C9_counterexample :
    (generate_all_main [false]).1 < (generate_all_main [false]).2.1
    ∧ (generate_all_main [false]).2.2 = 0 := by
  refine ⟨by decide, by decide⟩

/-- C9 (amended): the driver processes every directory without stopping early
— the success count is the number of successes over the whole input list —
but the process exit status is 0 regardless of failures; the aggregate result
appears only in the printed summary. -/
theorem C9_aggregate_status (results : List Bool) :
    generate_all_main results = (results.count true, results.length, 0) := by
  unfold generate_all_main
  rw [mainLoop_count]
  simp

/-- C10: shape of the generated badge list.  For every manifest the result of
`generate_shields` is the Version badge (defaulting the version to `0.0.0`),
then the Status badge, then a Platform badge exactly when the platforms field
is truthy, then a Talon Beta badge exactly when either beta flag is truthy —
between 2 and 4 lines in that fixed order. -/
theorem C10_shields_shape (m : Manifest) :
    generate_shields m =
      [versionLine m, statusLine m]
        ++ (if platTruthy m then [platformLine m] else [])
        ++ (if betaTruthy m then [betaLine] else [])
    ∧ 2 ≤ (generate_shields m).length
    ∧ (generate_shields m).length ≤ 4
    ∧ ((generate_shields m).any fun l => (lc "![Platform]").isPrefixOf l) = platTruthy m
    ∧ ((generate_shields m).any fun l => (lc "![Talon Beta]").isPrefixOf l) = betaTruthy m := by
  cases hp : platTruthy m <;> cases hb : betaTruthy m <;>
    simp [generate_shields, hp, hb, platPre_not_version, platPre_not_status,
      platPre_platform, platPre_not_beta, betaPre_not_version, betaPre_not_status,
      betaPre_not_platform, betaPre_beta]
